import Mathlib

/-!
Shallow embedding of the CDBMS query engine (src/sqlparser.h together with the
CLI shell in src/main.c).  Pure computations of the C code are translated into
Lean functions; file contents are modelled as lists of `fgets` lines, and the
catalog file as a list of schema records.  C `int` results are kept as `Int`
(`-1`, `0`, `1` flags survive verbatim); C `float` is modelled by `Rat`, with
the truncating `int` conversions of the source made explicit.
-/

namespace CDBMS

/-- Data types of table columns (enum FieldType, src/sqlparser.h:27-33).
`InvalidField` stands for the out-of-range value `Invalid` (5) that
`SQLParser_GetFieldType` returns for an unknown type keyword; the C code stores
that value unchecked into the `columnTypes` array. -/
inductive FieldType
  | Integer
  | Number
  | String
  | Boolean
  | InvalidField
  deriving DecidableEq

/-- Operators attached to tokens (enum Operator, src/sqlparser.h:59-69). -/
inductive Operator
  | InvalidOperator
  | EqualOperator
  | NotEqualOperator
  | GreaterThanOperator
  | LessThanOperator
  | GreaterOrEqualOperator
  | LessOrEqualOperator
  | AssignOperator
  deriving DecidableEq

/-- union Value (src/sqlparser.h:89-95).  The C union is untagged, but every
value the program builds comes from `SQLvalueFromStringAndType`, which fills
exactly the member selected by the accompanying `FieldType`; the embedding
therefore tags the member.  C `float` is modelled exactly by `Rat`. -/
inductive Value
  | integer (i : Int)
  | number (q : Rat)
  | string (s : String)
  | boolean (b : Bool)
  deriving DecidableEq

/-- Reading the `integer` member of the union.  The program only ever reads the
member selected by the stored type tag, so the default of a mismatched read
(uninitialised memory in C) is never observed by the theorems below. -/
def Value.getInteger : Value → Int
  | Value.integer i => i
  | _ => 0

/-- Reading the `number` member of the union (see `Value.getInteger`). -/
def Value.getNumber : Value → Rat
  | Value.number q => q
  | _ => 0

/-- Reading the `string` member of the union (see `Value.getInteger`). -/
def Value.getString : Value → String
  | Value.string s => s
  | _ => ""

/-- Reading the `boolean` member of the union (see `Value.getInteger`). -/
def Value.getBoolean : Value → Bool
  | Value.boolean b => b
  | _ => false

/-- One node of the token linked list (struct TokenList, src/sqlparser.h:72-79);
the list itself is a Lean `List`. -/
structure TokenL where
  keyword : String
  value : String
  operator : Operator
  deriving DecidableEq

/-- One column of a row (struct Column, src/sqlparser.h:103-108). -/
structure Column where
  value : Value
  type : FieldType
  position : Int
  deriving DecidableEq

/-- One row of a table (struct Row, src/sqlparser.h:116-121).  The fixed
`columns[128]` array is modelled as a list holding the initialised slots;
`columnCount` is kept separate because `SQLreadRow` sets it to one less than
the number of parsed fields. -/
structure Row where
  index : Int
  columns : List Column
  columnCount : Nat
  deriving DecidableEq

/-- Table schema record (struct TableStructureInfo, src/sqlparser.h:43-49).
The fixed 128-entry arrays are modelled by lists of the entries written so
far; the record is zero-initialised in C, so entries beyond the lists read as
zero (`Integer`, empty name) — see `typeAt`. -/
structure TableStructureInfo where
  count : Nat
  columns : List String
  columnTypes : List FieldType
  name : String
  deriving DecidableEq

/-- Command types (enum QueryType, src/sqlparser.h:16-24). -/
inductive QueryType
  | Create
  | Select
  | Delete
  | Insert
  | Update
  | Invalid
  deriving DecidableEq

/-- Lexer state (enum ScannerState, src/sqlparser.h:9-13). -/
inductive ScannerState
  | ScanValue
  | ScanToken
  deriving DecidableEq

/-- Outcome of `SQLParser_Parse`.  `ok` is a returned token list (possibly
empty: the C function can return a NULL head without an error message),
`parseError` is the `abort:` path (prints and returns NULL), and `outOfBounds`
marks the scanner reading past the input's NUL terminator — undefined
behaviour in C, kept as a distinguished outcome. -/
inductive ParseResult
  | ok (tokens : List TokenL)
  | parseError
  | outOfBounds
  deriving DecidableEq

/-- The NUL terminator of a C string. -/
def nulChar : Char := Char.ofNat 0

/-- The single-quote character. -/
def quoteChar : Char := Char.ofNat 39

/-- The space character. -/
def spaceChar : Char := Char.ofNat 32

/-- The horizontal-tab character. -/
def tabChar : Char := Char.ofNat 9

/-- The newline character. -/
def newlineChar : Char := Char.ofNat 10

/-- Newline as a one-character string (line terminator written by fprintf). -/
def nlStr : String := String.mk [newlineChar]

/-- Single quote as a one-character string. -/
def quoteStr : String := String.mk [quoteChar]

/-- C `isspace` on the default locale. -/
def isspaceB (c : Char) : Bool :=
  c == spaceChar || c == tabChar || c == newlineChar ||
  c == Char.ofNat 11 || c == Char.ofNat 12 || c == Char.ofNat 13

/-- Reading position `i` of a C string whose characters are `q`: positions at
or beyond `q.length` read the NUL terminator (reads strictly beyond position
`q.length` are out of bounds in C; the scanner loop detects that case itself
before calling `charAt`). -/
def charAt (q : List Char) (i : Nat) : Char :=
  if h : i < q.length then q.get ⟨i, h⟩ else nulChar

/-- Accumulate a digit string into a number. -/
def digitsToNat (ds : List Char) : Nat :=
  ds.foldl (fun a c => 10 * a + (c.toNat - 48)) 0

/-- Value of the longest digit prefix. -/
def leadingNat (cs : List Char) : Nat :=
  digitsToNat (cs.takeWhile Char.isDigit)

/-- Model of libc `strtol(s, NULL, 10)`: skip whitespace, optional sign, then
the longest digit prefix (0 when there is none).  The embedding keeps the
mathematical integer; the overflow clamping of `long` and the later narrowing
to `int` are irrelevant for the small literals exercised here. -/
def strtol (s : String) : Int :=
  match s.data.dropWhile isspaceB with
  | [] => 0
  | c :: rest =>
    if c = '-' then -(leadingNat rest : Int)
    else if c = '+' then (leadingNat rest : Int)
    else (leadingNat (c :: rest) : Int)

/-- Numerator and denominator of the digits-dot-digits magnitude of a decimal
literal: `ab.cd` is `abcd / 10^2`. -/
def strtodMagParts (cs : List Char) : Nat × Nat :=
  let ip := cs.takeWhile Char.isDigit
  let rest := cs.dropWhile Char.isDigit
  let frac :=
    match rest with
    | c :: r => if c = '.' then r.takeWhile Char.isDigit else []
    | [] => []
  (digitsToNat ip * 10 ^ frac.length + digitsToNat frac, 10 ^ frac.length)

/-- Model of libc `strtod` on plain decimal literals (optional sign, digits,
optional fractional part) — the only numeric-literal shapes this program
produces or consumes; exponent notation is not modelled. -/
def strtod (s : String) : Rat :=
  match s.data.dropWhile isspaceB with
  | [] => 0
  | c :: rest =>
    if c = '-' then mkRat (-(strtodMagParts rest).1 : Int) (strtodMagParts rest).2
    else if c = '+' then mkRat ((strtodMagParts rest).1 : Int) (strtodMagParts rest).2
    else mkRat ((strtodMagParts (c :: rest)).1 : Int) (strtodMagParts (c :: rest)).2

/-- C conversion of a floating value to `int`: truncation toward zero. -/
def truncToInt (q : Rat) : Int :=
  q.num.tdiv (q.den : Int)

/-- The String arm of `SQLvalueFromStringAndType` (src/sqlparser.h:175-189):
drop one leading quote, then drop a trailing quote.  When the intermediate
string is empty the C code reads `string[-1]` (out of bounds); such inputs are
never produced by this program's write path and are excluded from the
theorems. -/
def stripQuotes (s : String) : String :=
  let cs :=
    match s.data with
    | c :: rest => if c = quoteChar then rest else c :: rest
    | [] => []
  if cs.getLast? = some quoteChar then String.mk cs.dropLast else String.mk cs

/-- SQLvalueFromStringAndType (src/sqlparser.h:160-194).  For `InvalidField`
the C switch has no case and returns the union uninitialised; the embedding
returns an arbitrary value that no theorem observes. -/
def SQLvalueFromStringAndType (s : String) (type : FieldType) : Value :=
  match type with
  | FieldType.Integer => Value.integer (strtol s)
  | FieldType.Boolean => Value.boolean (s == "True")
  | FieldType.Number => Value.number (strtod s)
  | FieldType.String => Value.string (stripQuotes s)
  | FieldType.InvalidField => Value.integer 0

/-- Sign of libc `strcmp` on NUL-free byte strings (byte order coincides with
`Char` order on the ASCII data this program handles). -/
def strcmpv : List Char → List Char → Int
  | [], [] => 0
  | [], _ :: _ => -1
  | _ :: _, [] => 1
  | a :: as, b :: bs =>
    if a.toNat < b.toNat then -1
    else if b.toNat < a.toNat then 1
    else strcmpv as bs

/-- SQLParser_GetQueryType (src/sqlparser.h:214-217): binary search over the
sorted `QueryTypes` map, i.e. exact-match lookup. -/
def SQLParser_GetQueryType (s : String) : QueryType :=
  if s = "DATASET" then QueryType.Create
  else if s = "DELETE" then QueryType.Delete
  else if s = "INSERT_INTO" then QueryType.Insert
  else if s = "SELECT" then QueryType.Select
  else if s = "UPDATE" then QueryType.Update
  else QueryType.Invalid

/-- SQLParser_GetFieldType (src/sqlparser.h:220-223): binary search over the
sorted `DataTypes` map, i.e. exact-match lookup; unknown names yield the
out-of-range `Invalid` value, kept here as `InvalidField`. -/
def SQLParser_GetFieldType (s : String) : FieldType :=
  if s = "BOOLEAN" then FieldType.Boolean
  else if s = "INTEGER" then FieldType.Integer
  else if s = "NUMBER" then FieldType.Number
  else if s = "STRING" then FieldType.String
  else FieldType.InvalidField

/-- First index at which `target` occurs, counting from `i`. -/
def findIdxFrom (target : String) : Nat → List String → Option Nat
  | _, [] => none
  | i, c :: rest => if c = target then some i else findIdxFrom target (i + 1) rest

/-- SQLParser_FindColumn (src/sqlparser.h:452-464): linear scan of the first
`count` column names; `none` models the C return value `-1`. -/
def SQLParser_FindColumn (tS : TableStructureInfo) (column : String) : Option Nat :=
  findIdxFrom column 0 (tS.columns.take tS.count)

/-- Entry `i` of the zero-initialised `columnTypes[128]` array: entries beyond
the written prefix read as the zero value, i.e. `Integer`. -/
def typeAt (tS : TableStructureInfo) (i : Nat) : FieldType :=
  (tS.columnTypes.get? i).getD FieldType.Integer

/-- SQLcompareValues (src/sqlparser.h:561-661).  Returns `-1` for an
unsupported operator, otherwise `1`/`0` for the comparison outcome.  The
Number branch reproduces the source's `int lhs; int rhs;` declarations, which
truncate both operands toward zero before comparing, and both numeric
`LessOrEqualOperator` arms reproduce the source's `lhs >= rhs` (lines 588 and
614). -/
def SQLcompareValues (tok : TokenL) (value : Value) (type : FieldType) : Int :=
  if tok.operator = Operator.InvalidOperator then -1
  else
    match type with
    | FieldType.Integer =>
      let lhs : Int := strtol tok.value
      let rhs : Int := value.getInteger
      match tok.operator with
      | Operator.EqualOperator => if lhs = rhs then 1 else 0
      | Operator.NotEqualOperator => if lhs ≠ rhs then 1 else 0
      | Operator.GreaterThanOperator => if lhs > rhs then 1 else 0
      | Operator.GreaterOrEqualOperator => if lhs ≥ rhs then 1 else 0
      | Operator.LessThanOperator => if lhs < rhs then 1 else 0
      | Operator.LessOrEqualOperator => if lhs ≥ rhs then 1 else 0
      | _ => -1
    | FieldType.Number =>
      let lhs : Int := truncToInt (strtod tok.value)
      let rhs : Int := truncToInt value.getNumber
      match tok.operator with
      | Operator.EqualOperator => if lhs = rhs then 1 else 0
      | Operator.NotEqualOperator => if lhs ≠ rhs then 1 else 0
      | Operator.GreaterThanOperator => if lhs > rhs then 1 else 0
      | Operator.GreaterOrEqualOperator => if lhs ≥ rhs then 1 else 0
      | Operator.LessThanOperator => if lhs < rhs then 1 else 0
      | Operator.LessOrEqualOperator => if lhs ≥ rhs then 1 else 0
      | _ => -1
    | FieldType.String =>
      let c := strcmpv tok.value.data value.getString.data
      match tok.operator with
      | Operator.EqualOperator => if c = 0 then 1 else 0
      | Operator.NotEqualOperator => if c ≠ 0 then 1 else 0
      | Operator.GreaterThanOperator => if c > 0 then 1 else 0
      | Operator.GreaterOrEqualOperator => if c ≥ 0 then 1 else 0
      | Operator.LessThanOperator => if c < 0 then 1 else 0
      | Operator.LessOrEqualOperator => if c ≤ 0 then 1 else 0
      | _ => -1
    | FieldType.Boolean =>
      match tok.operator with
      | Operator.AssignOperator => -1
      | Operator.InvalidOperator => -1
      | _ => if (tok.value == "True") = value.getBoolean then 1 else 0
    | FieldType.InvalidField => 1

/-- Loop body of SQLfilterRow over the condition tokens. -/
def SQLfilterRow_go (tS : TableStructureInfo) (row : Row) : List TokenL → Int
  | [] => 1
  | tok :: rest =>
    match SQLParser_FindColumn tS tok.keyword with
    | none => SQLfilterRow_go tS row rest
    | some position =>
      match row.columns.get? position with
      | none => SQLfilterRow_go tS row rest
      | some column =>
        let compared := SQLcompareValues tok column.value column.type
        if compared ≠ -1 ∧ (position : Int) = column.position ∧ compared = 0 then 0
        else SQLfilterRow_go tS row rest

/-- SQLfilterRow (src/sqlparser.h:664-694): skips the head (command) token and
checks the remaining tokens against the row; an unresolvable column name is
silently skipped (`position != -1` guard), as is a token whose comparison is
unsupported (`compared != -1` guard).  The `row.columns.get?` miss case models
the C code reading an uninitialised column slot; it is only reachable for rows
shorter than the schema and never arises in the theorems below. -/
def SQLfilterRow (list : List TokenL) (tS : TableStructureInfo) (row : Row) : Int :=
  match list with
  | [] => 0
  | _ :: rest =>
    match rest with
    | [] => 1
    | _ :: _ => SQLfilterRow_go tS row rest

/-- SQLisValidRow (src/sqlparser.h:800-820): with a non-empty token list,
reject when the row already holds more columns than the schema or when the
FIRST token's keyword does not resolve to a column; later tokens are not
inspected. -/
def SQLisValidRow (list : List TokenL) (tS : TableStructureInfo) (row : Row) : Int :=
  match list with
  | [] => 1
  | tok :: _ =>
    if row.columnCount > tS.count then 0
    else
      match SQLParser_FindColumn tS tok.keyword with
      | none => 0
      | some _ => 1

/-- SQLfindOperator_helper (src/sqlparser.h:291-338): reads the operator at
position `i` and reports how far the pointer advanced.  The third branch
reproduces the source's `(*query == '!') && (*query == '=')` (line 326), a
condition on the same character twice that can never hold, so a `!` falls
through to `AssignOperator`. -/
def SQLfindOperator_helper (q : List Char) (i : Nat) : Operator × Nat :=
  let c := charAt q i
  let c1 := charAt q (i + 1)
  if c = '>' then
    if c1 = '=' then (Operator.GreaterOrEqualOperator, 1) else (Operator.GreaterThanOperator, 0)
  else if c = '<' then
    if c1 = '=' then (Operator.LessOrEqualOperator, 1)
    else if c1 = '>' then (Operator.NotEqualOperator, 1)
    else (Operator.LessThanOperator, 0)
  else if c = '!' ∧ c = '=' then (Operator.NotEqualOperator, 1)
  else if c = '=' then (Operator.EqualOperator, 0)
  else (Operator.AssignOperator, 0)

/-- The post-operator whitespace skip `while ((*(++query) != '\0') &&
(isspace(*query) != 0));` — pre-increment, then stop at the terminator or the
first non-space. -/
def skipSpacesAux (q : List Char) : Nat → Nat → Nat
  | 0, j => j
  | fuel + 1, j =>
    if h : j < q.length then
      if isspaceB (q.get ⟨j, h⟩) then skipSpacesAux q fuel (j + 1) else j
    else j

/-- Entry point of the whitespace skip; the position increases on every fuel
unit spent and the loop stops at the terminator, so fuel `q.length + 1` never
runs out. -/
def skipSpaces (q : List Char) (j : Nat) : Nat :=
  skipSpacesAux q (q.length + 1) j

/-- The quoted-span loop `while ((*(query++) != '\0') && (*query != '\''))
buffer[index++] = *query;` starting at the opening quote: returns the final
pointer position and the grown buffer.  On an unterminated quote the loop runs
to the terminator (appending it to the buffer) and leaves the pointer one past
it. -/
def consumeQuotedAux (q : List Char) : Nat → Nat → List Char → Nat × List Char
  | 0, i, buffer => (i + 1, buffer)
  | fuel + 1, i, buffer =>
    if i < q.length then
      let c1 := charAt q (i + 1)
      if c1 = quoteChar then (i + 1, buffer)
      else consumeQuotedAux q fuel (i + 1) (buffer ++ [c1])
    else (i + 1, buffer)

/-- Entry point of the quoted-span loop; the position increases on every fuel
unit spent and the loop stops at the terminator, so fuel `q.length + 1` never
runs out. -/
def consumeQuoted (q : List Char) (i : Nat) (buffer : List Char) : Nat × List Char :=
  consumeQuotedAux q (q.length + 1) i buffer

/-- The keyword trim of src/sqlparser.h:375-379.  Spaces never enter the
accumulation buffer (the whitespace cases of the scanner skip them), so both
loops are no-ops on every reachable buffer; on an empty buffer the C loops
would read out of bounds. -/
def trimBuffer (buffer : List Char) : List Char :=
  ((buffer.dropWhile isspaceB).reverse.dropWhile isspaceB).reverse

/-- The scanner loop of SQLParser_Parse (src/sqlparser.h:361-432), one fuel
unit per loop iteration.  The position strictly increases on every recursive
call and the loop stops no later than position `q.length + 2`, so fuel
`q.length + 3` can never run out (the fuel-exhausted value is unreachable). -/
def parseStep (q : List Char) :
    Nat → Nat → ScannerState → List Char → List Char → Operator → List TokenL → ParseResult
  | 0, _, _, _, _, _, _ => ParseResult.outOfBounds
  | Nat.succ fuel, i, state, buffer, keyword, operator, head =>
    if i > q.length then ParseResult.outOfBounds
    else if i = q.length then
      match state with
      | ScannerState.ScanValue =>
        ParseResult.ok (head ++ [⟨String.mk keyword, String.mk buffer, operator⟩])
      | ScannerState.ScanToken => ParseResult.ok head
    else
      let c := charAt q i
      if c = ':' ∨ c = '<' ∨ c = '>' ∨ c = '!' ∨ c = '=' then
        let p := SQLfindOperator_helper q i
        match state with
        | ScannerState.ScanToken =>
          parseStep q fuel (skipSpaces q (i + p.2 + 1)) ScannerState.ScanValue
            [] (trimBuffer buffer) p.1 head
        | ScannerState.ScanValue => ParseResult.parseError
      else if c = quoteChar then
        match state with
        | ScannerState.ScanToken => ParseResult.parseError
        | ScannerState.ScanValue =>
          let r := consumeQuoted q i buffer
          parseStep q fuel (r.1 + 1) state r.2 keyword operator head
      else if c = spaceChar ∨ c = tabChar ∨ c = newlineChar then
        match state with
        | ScannerState.ScanValue =>
          parseStep q fuel (i + 1) ScannerState.ScanToken [] keyword operator
            (head ++ [⟨String.mk keyword, String.mk buffer, operator⟩])
        | ScannerState.ScanToken => parseStep q fuel (i + 1) state buffer keyword operator head
      else
        parseStep q fuel (i + 1) state (buffer ++ [c]) keyword operator head

/-- SQLParser_Parse (src/sqlparser.h:340-449), assuming the two temporary
allocations succeed. -/
def SQLParser_Parse (query : String) : ParseResult :=
  parseStep query.data (query.data.length + 3) 0 ScannerState.ScanToken [] []
    Operator.AssignOperator []

/-- Decimal rendering of a natural number. -/
def natToStr (n : Nat) : String := String.mk (Nat.toDigits 10 n)

/-- printf `%d` of an int. -/
def intToStr (i : Int) : String :=
  if i < 0 then "-" ++ natToStr i.natAbs else natToStr i.natAbs

/-- First `k` decimal digits of a fraction `0 ≤ r < 1`. -/
def fracDigitsAux : Nat → Rat → List Char
  | 0, _ => []
  | k + 1, r =>
    let r10 := r * 10
    let d := r10.floor
    Char.ofNat (48 + d.toNat) :: fracDigitsAux k (r10 - (d : Rat))

/-- Magnitude part of the `%g` model: integer part, then up to six fractional
digits with trailing zeros removed. -/
def formatGmag (q : Rat) : String :=
  let ip := q.floor.toNat
  let ds := ((fracDigitsAux 6 (q - (ip : Rat))).reverse.dropWhile (fun c => c == '0')).reverse
  if ds.isEmpty then natToStr ip else natToStr ip ++ "." ++ String.mk ds

/-- Model of printf `%g` on the short plain-decimal magnitudes this program
produces (the only Number values exercised by the theorems below); the
scientific notation and significant-digit rounding of `%g` on extreme values
are not modelled. -/
def formatG (q : Rat) : String :=
  if q < 0 then "-" ++ formatGmag (-q) else formatGmag q

/-- One field of the record format written by SQLwriteRowToFile
(src/sqlparser.h:506-520): the value formatted per its type, followed by the
`;` separator.  The out-of-range `InvalidField` tag matches no switch case in
C and prints nothing. -/
def writeValue (column : Column) : String :=
  match column.type with
  | FieldType.Integer => intToStr column.value.getInteger ++ ";"
  | FieldType.Boolean => (if column.value.getBoolean then "True" else "False") ++ ";"
  | FieldType.Number => formatG column.value.getNumber ++ ";"
  | FieldType.String => quoteStr ++ column.value.getString ++ quoteStr ++ ";"
  | FieldType.InvalidField => ""

/-- SQLwriteRowToFile (src/sqlparser.h:496-523): the row index, then the first
`columnCount` columns, then a newline. -/
def SQLwriteRowToFile (row : Row) : String :=
  intToStr row.index ++ ";" ++ String.join ((row.columns.take row.columnCount).map writeValue)
    ++ nlStr

/-- SQLwriteRow (src/sqlparser.h:541-550): append one record to the table
file.  When `fopen` fails (`openOk = false`) the C function returns without
writing and without reporting anything. -/
def SQLwriteRow (openOk : Bool) (fileLines : List String) (row : Row) : List String :=
  if openOk then fileLines ++ [SQLwriteRowToFile row] else fileLines

/-- strtok with separator `;` over one line: maximal runs of non-separator
characters (strtok never yields empty tokens). -/
def splitOnSemi : List Char → List Char → List (List Char)
  | [], acc => [acc.reverse]
  | c :: rest, acc =>
    if c = ';' then acc.reverse :: splitOnSemi rest []
    else splitOnSemi rest (c :: acc)

/-- The `strtok(line, ";")` field sequence of one line. -/
def strtokFields (s : String) : List String :=
  ((splitOnSemi s.data []).filter (fun f => !f.isEmpty)).map String.mk

/-- Map with a running index. -/
def mapWithIndex (f : Nat → α → β) : Nat → List α → List β
  | _, [] => []
  | i, a :: rest => f i a :: mapWithIndex f (i + 1) rest

/-- SQLreadRow (src/sqlparser.h:697-750) applied to one `fgets` line: the
first field is the row index; every later field (including the line's trailing
`"\n"` remnant, which strtok returns as a field of its own) becomes a column,
and the final `columnCount -= 1` discounts exactly that remnant.  On a line
with no field at all the C code underflows the `size_t` columnCount; such
lines are never produced by the write path and are excluded from the
theorems. -/
def SQLreadRow (tS : TableStructureInfo) (line : String) : Row :=
  match strtokFields line with
  | [] => { index := 0, columns := [], columnCount := 0 }
  | f0 :: dataFields =>
    { index := strtol f0,
      columns := mapWithIndex (fun i f =>
        let type := typeAt tS i
        { position := (i : Int), type := type,
          value := SQLvalueFromStringAndType f type }) 0 dataFields,
      columnCount := dataFields.length - 1 }

/-- SQLloadTable (src/sqlparser.h:752-797) with the table file given as its
`fgets` lines, assuming the reallocation inside the loop succeeds: every line
becomes a row, and with a condition list present the rows rejected by
SQLfilterRow are skipped. -/
def SQLloadTable (cond : Option (List TokenL)) (tS : TableStructureInfo)
    (lines : List String) : List Row :=
  match cond with
  | none => lines.map (SQLreadRow tS)
  | some list => (lines.map (SQLreadRow tS)).filter (fun row => SQLfilterRow list tS row != 0)

/-- Replace element `i` (no effect out of range; the C array write to a slot
at or beyond `columnCount` is never observed by the write path). -/
def modifyAt (f : α → α) : Nat → List α → List α
  | _, [] => []
  | 0, a :: rest => f a :: rest
  | n + 1, a :: rest => a :: modifyAt f n rest

/-- Assignment pass of SQLupdateRowAndWriteToFile (src/sqlparser.h:526-538):
every `Assign` token whose keyword resolves overwrites that column's value,
converted per the schema's declared type; others are skipped silently. -/
def SQLupdateRowApply (tS : TableStructureInfo) : List TokenL → Row → Row
  | [], row => row
  | tok :: rest, row =>
    let row' :=
      if tok.operator = Operator.AssignOperator then
        match SQLParser_FindColumn tS tok.keyword with
        | some index =>
          let setVal : Column → Column := fun c =>
            { c with value := SQLvalueFromStringAndType tok.value (typeAt tS index) }
          { row with columns := modifyAt setVal index row.columns }
        | none => row
      else row
    SQLupdateRowApply tS rest row'

/-- Row transformation of SQLupdate (src/sqlparser.h:883-929): per loaded row,
an invalid row aborts the whole statement (`none`: the temporary file is
removed and the original left in place); a row failing the filter is written
back unchanged; a matching row is written with the assignments applied. -/
def SQLupdateRows (list : List TokenL) (tS : TableStructureInfo) : List Row → Option (List Row)
  | [] => some []
  | row :: rest =>
    if SQLisValidRow list.tail tS row = 0 then none
    else
      let out := if SQLfilterRow list tS row = 0 then row
                 else SQLupdateRowApply tS list.tail row
      Option.map (fun t => out :: t) (SQLupdateRows list tS rest)

/-- Row transformation of SQLdelete (src/sqlparser.h:834-880): rows failing
the filter are retained, matching rows are dropped; an invalid row aborts the
statement. -/
def SQLdeleteRows (list : List TokenL) (tS : TableStructureInfo) : List Row → Option (List Row)
  | [] => some []
  | row :: rest =>
    if SQLisValidRow list.tail tS row = 0 then none
    else if SQLfilterRow list tS row = 0 then
      Option.map (fun t => row :: t) (SQLdeleteRows list tS rest)
    else SQLdeleteRows list tS rest

/-- Final table-file contents after SQLupdate, assuming mktemp/fopen succeed:
on abort the original lines stay (the temporary is discarded before the
remove/rename pair), otherwise the rewritten rows replace the file. -/
def SQLupdateFile (list : List TokenL) (tS : TableStructureInfo)
    (lines : List String) : List String :=
  match SQLupdateRows list tS (SQLloadTable none tS lines) with
  | none => lines
  | some rows => rows.map SQLwriteRowToFile

/-- Final table-file contents after SQLdelete (see `SQLupdateFile`). -/
def SQLdeleteFile (list : List TokenL) (tS : TableStructureInfo)
    (lines : List String) : List String :=
  match SQLdeleteRows list tS (SQLloadTable none tS lines) with
  | none => lines
  | some rows => rows.map SQLwriteRowToFile

/-- SQLcheckOperator (src/sqlparser.h:932-937): equality test (with a printed
message on mismatch). -/
def SQLcheckOperator (lhs rhs : Operator) : Bool := lhs = rhs

/-- Loop of SQLinsert over the assignment tokens.  `SQLisValidRow` is called
on the current list node, i.e. the current token followed by the rest. -/
def SQLinsert_go (tS : TableStructureInfo) (row : Row) : List TokenL → Option Row
  | [] => some row
  | tok :: rest =>
    if SQLcheckOperator tok.operator Operator.AssignOperator = false then none
    else if SQLisValidRow (tok :: rest) tS row = 0 then none
    else
      let type := typeAt tS row.columnCount
      let column : Column :=
        { value := SQLvalueFromStringAndType tok.value type, type := type,
          position :=
            match SQLParser_FindColumn tS tok.keyword with
            | some i => (i : Int)
            | none => -1 }
      SQLinsert_go tS
        { row with columns := row.columns ++ [column], columnCount := row.columnCount + 1 } rest

/-- SQLinsert (src/sqlparser.h:940-973): builds the row from the tokens after
the command token, starting from `index = 0` and `columnCount = 0`; `some` is
the row handed to SQLwriteRow for appending, `none` means the statement was
rejected before any write. -/
def SQLinsert (list : List TokenL) (tS : TableStructureInfo) : Option Row :=
  match list with
  | [] => none
  | _ :: rest => SQLinsert_go tS { index := 0, columns := [], columnCount := 0 } rest

/-- Effect of SQLinsert on the table file: the built row is appended through
SQLwriteRow (which silently does nothing when its fopen fails). -/
def SQLinsertEffect (list : List TokenL) (tS : TableStructureInfo) (openOk : Bool)
    (fileLines : List String) : List String :=
  match SQLinsert list tS with
  | none => fileLines
  | some row => SQLwriteRow openOk fileLines row

/-- Column loop of SQLParser_CreateTable (src/sqlparser.h:1002-1019).  The
bounds reproduce the source: the name-length guard compares against
`sizeof(info.columns) - 1 = 16383` (not the 127 bytes of one name) and the
count guard against `sizeof(info.columnTypes) = 512` (not the 128 slots), so
neither fires for realistic inputs. -/
def SQLcreateColumns : List TokenL → TableStructureInfo → Option TableStructureInfo
  | [], info => some info
  | tok :: rest, info =>
    if tok.keyword.length > 16383 then none
    else
      let info' : TableStructureInfo :=
        { info with
          columns := info.columns ++ [tok.keyword],
          columnTypes := info.columnTypes ++ [SQLParser_GetFieldType tok.value],
          count := info.count + 1 }
      if info'.count > 512 then none
      else SQLcreateColumns rest info'

/-- SQLParser_CreateTable (src/sqlparser.h:976-1031), returning the record
appended to the catalog file on success.  The name copy reproduces the
source: `length` is `strlen(list->keyword)` — the COMMAND keyword — and
`memcpy(info.name, list->value, length)` copies that many bytes of the table
name into the zeroed record, so the stored name is the table name truncated to
the keyword's length (when the name is shorter, the copy also reads past its
terminator but the copied NUL already ends the stored string). -/
def SQLParser_CreateTable (list : List TokenL) : Option TableStructureInfo :=
  match list with
  | [] => none
  | head :: rest =>
    if head.keyword.length > 127 then none
    else
      SQLcreateColumns rest
        { count := 0, columns := [], columnTypes := [],
          name := String.mk (head.value.data.take head.keyword.length) }

/-- The all-zero TableStructureInfo that SQLParser_FindTable returns when no
record matches (memset to 0, src/sqlparser.h:1039,1055). -/
def SQLemptyInfo : TableStructureInfo :=
  { count := 0, columns := [], columnTypes := [], name := "" }

/-- SQLParser_FindTable (src/sqlparser.h:1034-1058) over the catalog records:
first record whose stored name equals the query, else the zeroed record. -/
def SQLParser_FindTable (catalog : List TableStructureInfo) (name : String) :
    TableStructureInfo :=
  match catalog with
  | [] => SQLemptyInfo
  | t :: rest => if t.name = name then t else SQLParser_FindTable rest name

/-- Durable state seen by one statement: the catalog records, the lines of the
addressed table's storage file, and whether the write-path `fopen`/mktemp of
this statement succeeds. -/
structure World where
  catalog : List TableStructureInfo
  tableLines : List String
  writeOpenOk : Bool
  deriving DecidableEq

/-- SQLExecuteQuery (src/sqlparser.h:1061-1098) given the parse outcome: a
NULL token list returns 1, everything else returns 0 — the executors are void
functions, so no storage failure can reach this return value.  `none` is the
undefined-behaviour parse outcome.  The world tracks the statement's effect on
durable state; a failed write-path open leaves the corresponding operation
without effect, exactly as the early `return`s of the C executors do. -/
def SQLExecuteQuery (parsed : ParseResult) (w : World) : Option (Int × World) :=
  match parsed with
  | ParseResult.outOfBounds => none
  | ParseResult.parseError => some (1, w)
  | ParseResult.ok [] => some (1, w)
  | ParseResult.ok (head :: rest) =>
    let list := head :: rest
    let table := SQLParser_FindTable w.catalog head.value
    match SQLParser_GetQueryType head.keyword with
    | QueryType.Create =>
      if table.name = "" then
        match SQLParser_CreateTable list with
        | some record => some (0, { w with catalog := w.catalog ++ [record] })
        | none => some (0, w)
      else some (0, w)
    | QueryType.Select => some (0, w)
    | QueryType.Update =>
      some (0, { w with tableLines :=
        if w.writeOpenOk then SQLupdateFile list table w.tableLines else w.tableLines })
    | QueryType.Insert =>
      some (0, { w with tableLines := SQLinsertEffect list table w.writeOpenOk w.tableLines })
    | QueryType.Delete =>
      some (0, { w with tableLines :=
        if w.writeOpenOk then SQLdeleteFile list table w.tableLines else w.tableLines })
    | QueryType.Invalid => some (0, w)

/-- A one-column Integer table `t` with column `a`, as its catalog record. -/
def tS1 : TableStructureInfo :=
  { count := 1, columns := ["a"], columnTypes := [FieldType.Integer], name := "t" }

/-- Token list of `INSERT_INTO t a=7`. -/
def insTokens : List TokenL :=
  [⟨"INSERT_INTO", "t", Operator.AssignOperator⟩, ⟨"a", "7", Operator.AssignOperator⟩]

/-- Token list of an UPDATE on `t` with a condition on `a`, a condition on the
nonexistent column `bogus`, and an assignment to `a`. -/
def updTokens : List TokenL :=
  [⟨"UPDATE", "t", Operator.AssignOperator⟩,
   ⟨"a", "5", Operator.EqualOperator⟩,
   ⟨"bogus", "1", Operator.EqualOperator⟩,
   ⟨"a", "7", Operator.AssignOperator⟩]

/-- Token list of an UPDATE on `t` whose condition `a = 9` matches no stored
row, with an assignment to `a`. -/
def zeroMatchTokens : List TokenL :=
  [⟨"UPDATE", "t", Operator.AssignOperator⟩,
   ⟨"a", "9", Operator.EqualOperator⟩,
   ⟨"a", "7", Operator.AssignOperator⟩]

/-- A one-row storage file for `t`: row index 0, column `a = 5`. -/
def lines1 : List String := ["0;5;" ++ nlStr]

/-- A world holding table `t` with one row whose write-path open fails. -/
def failWorld : World := { catalog := [tS1], tableLines := lines1, writeOpenOk := false }

/-- Token list of `DATASET` creating table `customers` with column
`age INTEGER`. -/
def createToks : List TokenL :=
  [⟨"DATASET", "customers", Operator.AssignOperator⟩,
   ⟨"age", "INTEGER", Operator.AssignOperator⟩]

/-- The catalog record the CREATE above actually writes: the stored name is
the table name truncated to `strlen("DATASET") = 7` bytes. -/
def truncatedRec : TableStructureInfo :=
  { count := 1, columns := ["age"], columnTypes := [FieldType.Integer], name := "custome" }

/-- The query `a='b` — a value opened with a single quote that never closes. -/
def untermQuoteQuery : String := String.mk ['a', '=', Char.ofNat 39, 'b']

/-- A condition token on the nonexistent column `bogus`. -/
def bogusTok : TokenL := ⟨"bogus", "1", Operator.EqualOperator⟩

/-- Token list of an UPDATE/DELETE on `t` whose first (and only) token after
the command references the nonexistent column `bogus`. -/
def bogusTokens : List TokenL := [⟨"UPDATE", "t", Operator.AssignOperator⟩, bogusTok]

end CDBMS

namespace CDBMS

/-- Helper: with a non-empty token list whose first keyword does not resolve
to a column, SQLisValidRow rejects the row no matter what else it holds. -/
theorem SQLisValidRow_of_find_none (tok : TokenL) (rest : List TokenL)
    (tS : TableStructureInfo) (row : Row)
    (h : SQLParser_FindColumn tS tok.keyword = none) :
    SQLisValidRow (tok :: rest) tS row = 0 := by
  simp [SQLisValidRow, h]

/-- Helper: when no row satisfies the filter, SQLupdate either aborts (on a
row its first-token validation rejects) or writes every row back unchanged. -/
theorem SQLupdateRows_no_match (list : List TokenL) (tS : TableStructureInfo) :
    ∀ rows : List Row, (∀ r ∈ rows, SQLfilterRow list tS r = 0) →
      SQLupdateRows list tS rows = none ∨ SQLupdateRows list tS rows = some rows := by
  intro rows
  induction rows with
  | nil => intro _; right; rfl
  | cons r rs ih =>
    intro hf
    by_cases hv : SQLisValidRow list.tail tS r = 0
    · left; simp [SQLupdateRows, hv]
    · have h0 := hf r (List.mem_cons_self r rs)
      rcases ih (fun x hx => hf x (List.mem_cons_of_mem r hx)) with h | h
      · left; simp [SQLupdateRows, hv, h]
      · right; simp [SQLupdateRows, hv, h0, h]

/-- Helper: the loop of SQLinsert never changes the row index it was given. -/
theorem SQLinsert_go_index (tS : TableStructureInfo) :
    ∀ (toks : List TokenL) (r row : Row),
      SQLinsert_go tS r toks = some row → row.index = r.index := by
  intro toks
  induction toks with
  | nil =>
    intro r row h
    simp only [SQLinsert_go] at h
    injection h with h2
    rw [← h2]
  | cons t ts ih =>
    intro r row h
    by_cases h1 : SQLcheckOperator t.operator Operator.AssignOperator = false
    · simp [SQLinsert_go, h1] at h
    · by_cases h2 : SQLisValidRow (t :: ts) tS r = 0
      · simp [SQLinsert_go, h1, h2] at h
      · simp only [SQLinsert_go, if_neg h1, if_neg h2] at h
        have h3 := ih _ row h
        exact h3

/-- C1: the claim says LessOrEqual on numeric values must hold exactly when
the condition literal is less than or equal to the stored value.  The code's
numeric LessOrEqual arms return `lhs >= rhs` instead: with literal 3 against
stored 5 (where 3 ≤ 5) both the Integer and the Number branch answer 0, and
with literal 7 against stored 5 (where 7 ≤ 5 fails) the code answers 1. -/
theorem claim_C1_lessOrEqual_is_ge :
    SQLcompareValues ⟨"a", "3", Operator.LessOrEqualOperator⟩ (Value.integer 5)
        FieldType.Integer = 0 ∧
    SQLcompareValues ⟨"a", "3", Operator.LessOrEqualOperator⟩ (Value.number (mkRat 5 1))
        FieldType.Number = 0 ∧
    SQLcompareValues ⟨"a", "7", Operator.LessOrEqualOperator⟩ (Value.integer 5)
        FieldType.Integer = 1 ∧
    (3 : Int) ≤ 5 ∧ ¬ (7 : Int) ≤ 5 := by decide

/-- C2 (counterexample): an UPDATE whose token list references the
nonexistent column `bogus` does not abort: it runs to completion and replaces
the stored row `a = 5` with `a = 7`, so the storage file is modified. -/
theorem claim_C2_counterexample :
    SQLParser_FindColumn tS1 "bogus" = none ∧
    SQLupdateFile updTokens tS1 lines1 = ["0;7;" ++ nlStr] ∧
    ["0;7;" ++ nlStr] ≠ lines1 := by decide

/-- C2 (amended): only the FIRST token after the command is validated — when
that token's column does not resolve, UPDATE and DELETE leave the table file
contents unchanged (the per-row validation rejects every row, so the
statement aborts before the original file is replaced; an empty table is
rewritten with identical empty contents).  Unresolvable columns in later
tokens do not abort (see the counterexample). -/
theorem claim_C2_amended (list : List TokenL) (tS : TableStructureInfo) (lines : List String)
    (tok : TokenL) (rest : List TokenL) (hd : list.tail = tok :: rest)
    (hcol : SQLParser_FindColumn tS tok.keyword = none) :
    SQLupdateFile list tS lines = lines ∧ SQLdeleteFile list tS lines = lines := by
  cases lines with
  | nil => exact ⟨rfl, rfl⟩
  | cons l ls =>
    have hv : SQLisValidRow list.tail tS (SQLreadRow tS l) = 0 := by
      rw [hd]; exact SQLisValidRow_of_find_none tok rest tS _ hcol
    constructor
    · simp [SQLupdateFile, SQLloadTable, SQLupdateRows, hv]
    · simp [SQLdeleteFile, SQLloadTable, SQLdeleteRows, hv]

/-- C2 (witness): the amended statement at the concrete statement
`UPDATE t bogus=1` on the one-row table `t`. -/
theorem claim_C2_amended_witness :
    bogusTokens.tail = bogusTok :: [] ∧
    SQLParser_FindColumn tS1 bogusTok.keyword = none ∧
    (SQLupdateFile bogusTokens tS1 lines1 = lines1 ∧
      SQLdeleteFile bogusTokens tS1 lines1 = lines1) :=
  ⟨rfl, by decide, claim_C2_amended bogusTokens tS1 lines1 bogusTok [] rfl (by decide)⟩

/-- C3 (counterexample): an INSERT whose storage `fopen` fails is not
reported: the built row is silently dropped, the world is unchanged, and
SQLExecuteQuery still returns the success result 0. -/
theorem claim_C3_counterexample :
    failWorld.writeOpenOk = false ∧
    SQLExecuteQuery (ParseResult.ok insTokens) failWorld = some (0, failWorld) ∧
    (SQLinsert insTokens tS1).isSome = true := by decide

/-- C3 (amended): the executors are void functions, so SQLExecuteQuery
returns 0 for every successfully parsed non-empty statement no matter what
storage does; a failed write-path open merely leaves the table file
untouched, with no error indication to the caller (the process is not
aborted: every failure path is a plain return). -/
theorem claim_C3_amended (list : List TokenL) (h : list ≠ []) (w : World)
    (hw : w.writeOpenOk = false) :
    ∃ w2, SQLExecuteQuery (ParseResult.ok list) w = some (0, w2) ∧
      w2.tableLines = w.tableLines := by
  cases list with
  | nil => exact absurd rfl h
  | cons head rest =>
    cases hq : SQLParser_GetQueryType head.keyword with
    | Create =>
      by_cases hn : (SQLParser_FindTable w.catalog head.value).name = ""
      · cases hc : SQLParser_CreateTable (head :: rest) with
        | some record =>
          refine ⟨{ w with catalog := w.catalog ++ [record] }, ?_, rfl⟩
          simp [SQLExecuteQuery, hq, hn, hc]
        | none =>
          refine ⟨w, ?_, rfl⟩
          simp [SQLExecuteQuery, hq, hn, hc]
      · refine ⟨w, ?_, rfl⟩
        simp [SQLExecuteQuery, hq, hn]
    | Select => exact ⟨w, by simp [SQLExecuteQuery, hq], rfl⟩
    | Update =>
      refine ⟨{ w with tableLines := (if w.writeOpenOk then SQLupdateFile (head :: rest) (SQLParser_FindTable w.catalog head.value) w.tableLines else w.tableLines) }, ?_, ?_⟩
      · simp [SQLExecuteQuery, hq]
      · simp [hw]
    | Insert =>
      refine ⟨{ w with tableLines := (SQLinsertEffect (head :: rest) (SQLParser_FindTable w.catalog head.value) w.writeOpenOk w.tableLines) }, ?_, ?_⟩
      · simp [SQLExecuteQuery, hq]
      · show SQLinsertEffect (head :: rest) (SQLParser_FindTable w.catalog head.value)
            w.writeOpenOk w.tableLines = w.tableLines
        rw [hw]
        rcases h4 : SQLinsert (head :: rest) (SQLParser_FindTable w.catalog head.value)
          with _ | row
        · simp [SQLinsertEffect, h4]
        · simp [SQLinsertEffect, h4, SQLwriteRow]
    | Delete =>
      refine ⟨{ w with tableLines := (if w.writeOpenOk then SQLdeleteFile (head :: rest) (SQLParser_FindTable w.catalog head.value) w.tableLines else w.tableLines) }, ?_, ?_⟩
      · simp [SQLExecuteQuery, hq]
      · simp [hw]
    | Invalid => exact ⟨w, by simp [SQLExecuteQuery, hq], rfl⟩

/-- C3 (witness): the amended statement at the concrete INSERT on the world
whose write-path open fails. -/
theorem claim_C3_amended_witness :
    insTokens ≠ [] ∧ failWorld.writeOpenOk = false ∧
    (∃ w2, SQLExecuteQuery (ParseResult.ok insTokens) failWorld = some (0, w2) ∧
      w2.tableLines = failWorld.tableLines) :=
  ⟨by decide, rfl, claim_C3_amended insTokens (by decide) failWorld rfl⟩

/-- C4: the claim says CREATE followed by find_table with the same name
returns the supplied schema.  The successful CREATE of table `customers`
stores a record whose name is `custome` — the memcpy length is
`strlen("DATASET") = 7`, the command keyword's length, not the table name's —
so find_table("customers") misses it and returns the zeroed record. -/
theorem claim_C4_create_then_find_misses :
    SQLParser_CreateTable createToks = some truncatedRec ∧
    truncatedRec.name ≠ "customers" ∧
    SQLParser_FindTable [truncatedRec] "customers" = SQLemptyInfo ∧
    SQLemptyInfo.name = "" := by decide

/-- C5: the claim says an unmatched opening quote is a parse error.  On
`a='b` the scanner instead consumes up to the NUL terminator and then
advances two positions past it, reading beyond the input buffer (undefined
behaviour in C, the `outOfBounds` outcome here) — no parse error is
produced. -/
theorem claim_C5_unterminated_quote :
    SQLParser_Parse untermQuoteQuery = ParseResult.outOfBounds ∧
    ParseResult.outOfBounds ≠ ParseResult.parseError := by decide

/-- C6: the claim says the lexeme `!=` produces NotEqual.  The code's guard
`(*query == '!') && (*query == '=')` tests the same character twice and never
holds, so at `!=` the helper yields AssignOperator without consuming the `!`,
and a full query `a!=b` then aborts with a parse error when the scanner meets
the `=` in ScanValue state. -/
theorem claim_C6_notEqual_lexeme :
    SQLfindOperator_helper ['!', '='] 0 = (Operator.AssignOperator, 0) ∧
    Operator.AssignOperator ≠ Operator.NotEqualOperator ∧
    SQLParser_Parse (String.mk ['a', '!', '=', 'b']) = ParseResult.parseError := by decide

/-- C7: the claim says Number conditions are compared as floats without
truncation to integer.  The Number branch declares `int lhs; int rhs;`, so
literal `2.3` against stored `2.5` compares `2 == 2` and answers equal, even
though the parsed literal 23/10 differs from the stored 5/2. -/
theorem claim_C7_number_truncated :
    SQLcompareValues ⟨"a", "2.3", Operator.EqualOperator⟩ (Value.number (mkRat 5 2))
        FieldType.Number = 1 ∧
    strtod "2.3" = mkRat 23 10 ∧ mkRat 23 10 ≠ mkRat 5 2 := by decide

/-- C8: the claim says an INSERT with more assignments than schema columns is
rejected with nothing appended.  The `columnCount > count` check runs before
the count is incremented, so two assignments into the one-column table `t`
pass validation and a two-column record is built and appended. -/
theorem claim_C8_insert_excess_appended :
    tS1.count = 1 ∧
    SQLinsert [⟨"INSERT_INTO", "t", Operator.AssignOperator⟩,
        ⟨"a", "1", Operator.AssignOperator⟩, ⟨"a", "2", Operator.AssignOperator⟩] tS1 =
      some ⟨0, [⟨Value.integer 1, FieldType.Integer, 0⟩,
        ⟨Value.integer 2, FieldType.Integer, 0⟩], 2⟩ := by decide

/-- C9: an UPDATE whose filter matches no loaded row leaves the table file
with exactly the rows it had: either the per-row validation aborts the
statement (the original file stays in place untouched), or every row is
written back unchanged, i.e. the file is the formatting canonicalisation
(re-serialisation of the parsed rows) of its previous contents. -/
theorem claim_C9_update_zero_match (list : List TokenL) (tS : TableStructureInfo)
    (lines : List String)
    (hfilter : ∀ l ∈ lines, SQLfilterRow list tS (SQLreadRow tS l) = 0) :
    SQLupdateFile list tS lines = lines ∨
      SQLupdateFile list tS lines =
        lines.map (fun l => SQLwriteRowToFile (SQLreadRow tS l)) := by
  have h := SQLupdateRows_no_match list tS (lines.map (SQLreadRow tS)) (by
    intro r hr
    obtain ⟨l, hl, rfl⟩ := List.mem_map.mp hr
    exact hfilter l hl)
  rcases h with h | h
  · left; simp [SQLupdateFile, SQLloadTable, h]
  · right; simp [SQLupdateFile, SQLloadTable, h]

/-- C9 (witness): the zero-match UPDATE `a = 9` on the one-row table `t`
whose row has `a = 5`; the file is reproduced exactly. -/
theorem claim_C9_witness :
    (∀ l ∈ lines1, SQLfilterRow zeroMatchTokens tS1 (SQLreadRow tS1 l) = 0) ∧
    (SQLupdateFile zeroMatchTokens tS1 lines1 = lines1 ∨
      SQLupdateFile zeroMatchTokens tS1 lines1 =
        lines1.map (fun l => SQLwriteRowToFile (SQLreadRow tS1 l))) :=
  ⟨by decide, claim_C9_update_zero_match zeroMatchTokens tS1 lines1 (by decide)⟩

/-- C10: every row SQLinsert builds for appending carries row index 0 — the
function initialises `row.index = 0` and nothing in its loop changes it, so
the appended record starts with index 0 regardless of the table's existing
rows. -/
theorem claim_C10_insert_index_zero (list : List TokenL) (tS : TableStructureInfo)
    (row : Row) (h : SQLinsert list tS = some row) : row.index = 0 := by
  cases list with
  | nil => simp [SQLinsert] at h
  | cons hd rest =>
    have h2 : SQLinsert_go tS { index := 0, columns := [], columnCount := 0 } rest
        = some row := by
      simpa [SQLinsert] using h
    exact SQLinsert_go_index tS rest _ row h2

/-- C10 (witness): the concrete INSERT into `t` builds a row whose index
is 0. -/
theorem claim_C10_witness :
    SQLinsert insTokens tS1 = some ⟨0, [⟨Value.integer 7, FieldType.Integer, 0⟩], 1⟩ ∧
    (⟨0, [⟨Value.integer 7, FieldType.Integer, 0⟩], 1⟩ : Row).index = 0 :=
  ⟨by decide, claim_C10_insert_index_zero insTokens tS1 _ (by decide)⟩

end CDBMS
